import Mathlib

/-!
Verification of the cloudstack-firecracker-extension host agent.

This file gives a shallow embedding, in Lean 4, of the parts of the host
agent that the specification talks about: TAP-name derivation and VLAN-id
resolution (backend/networking/helpers.py, linux_bridge_vlan.py), the
create-payload and state-store persistence paths (api/handlers.py,
config/manager.py, state/manager.py), the create rollback logic and the
stop handler (api/handlers.py, orchestration/vm_manager.py), and the
resource resolution of the spec builder (api/handlers.py, function
APIHandlers to_spec).  Machine integers are modelled as Int/Nat, Python
exceptions as Except, and external effects (netlink, subprocess, the
filesystem) as explicit parameters or operation traces.
-/

/-- Python exception kinds that the embedded code can raise. -/
inductive PyErr
  | typeError
  | attributeError
  | valueError
  | fileNotFoundError
  | networkingError (deviceId : Nat)
  | storageError
  | otherError
deriving DecidableEq

deriving instance DecidableEq for Except

/-- A Python value as far as the numeric coercions in the agent care:
an actual int, a string, or None (the result of dict.get for a missing
key).  Strings keep their text so that int(s) can be modelled. -/
inductive PyVal
  | int (n : Int)
  | str (s : String)
  | none
deriving DecidableEq

/-- Python int(value) for the values of PyVal: an int is itself, a string
parses as an optionally signed decimal integer, None raises (TypeError),
a non-numeric string raises (ValueError).  The result is an Option: some
on success, Option.none when int() would raise. -/
def pyIntOf : PyVal → Option Int
  | PyVal.int n => some n
  | PyVal.str s => s.toInt?
  | PyVal.none => Option.none

/-- The helper safe int of APIHandlers to_spec (api/handlers.py lines
563-567): try int(value) except (TypeError, ValueError) return default. -/
def pySafeInt (v : PyVal) (default : Int) : Int :=
  (pyIntOf v).getD default

/-! ## TAP naming (backend/networking/helpers.py, tap_name) -/

/-- The sanitisation inside tap_name: drop every character outside
[A-Za-z0-9], lowercase, truncate to 10 characters. -/
def sanitizeVmName (vmName : String) : String :=
  String.mk (((vmName.data.filter Char.isAlphanum).map Char.toLower).take 10)

/-- tap_name from backend/networking/helpers.py lines 24-33:
f<deviceId>-<sanitised vm name>. -/
def tapName (deviceId : Nat) (vmName : String) : String :=
  "f" ++ toString deviceId ++ "-" ++ sanitizeVmName vmName

/-! ## VLAN id resolution (backend/networking/helpers.py, vid_from_buri) -/

/-- The regular expression vlan://(digits) anchored on both sides, as
matched by vid_from_buri: a match yields the digits as a Nat. -/
def parseVlanUri (s : String) : Option Nat :=
  if s.startsWith "vlan://" then (s.drop 7).toNat? else Option.none

/-- The fallback branch of vid_from_buri (helpers.py lines 42-43):
if fallback and str(fallback).isdigit() then int(fallback). -/
def fallbackVid : Option String → Option Nat
  | some s => if s.isEmpty then Option.none else s.toNat?
  | Option.none => Option.none

/-- vid_from_buri from backend/networking/helpers.py lines 36-44.  The
broadcast URI is consulted first (skipped when falsy, that is None or
the empty string); when the anchored regex does not match, the fallback
string is consulted. -/
def vidFromBuri (broadcastUri : Option String) (fallback : Option String) : Option Nat :=
  match broadcastUri with
  | some s =>
    if s.isEmpty then fallbackVid fallback
    else
      match parseVlanUri s with
      | some n => some n
      | Option.none => fallbackVid fallback
  | Option.none => fallbackVid fallback

/-- A NIC as in models.py (dataclass NIC): device index, MAC, guest
addressing, optional explicit VLAN id, optional broadcast URI. -/
structure NIC where
  deviceId : Nat
  mac : String
  ip : String
  netmask : String
  gateway : String
  vlan : Option Int
  broadcastUri : Option String
deriving DecidableEq

/-- The VLAN-id resolution step of LinuxBridgeVlanBackend.prepare
(linux_bridge_vlan.py lines 120-122): vid = vid_from_buri(nic.broadcastUri,
None); if vid is None raise NetworkingError(... deviceId ...).  Note the
fallback argument at the call site is None, not the NIC vlan field. -/
def prepareNicVid (nic : NIC) : Except PyErr Nat :=
  match vidFromBuri nic.broadcastUri Option.none with
  | some v => Except.ok v
  | Option.none => Except.error (PyErr.networkingError nic.deviceId)

/-- The resolution rule as the specification words it for claim C2:
derive the VLAN id from broadcastUri (vlan://id) or, when that is absent,
from the explicit vlan field; fail only when neither source resolves. -/
def specClaimNicVid (nic : NIC) : Except PyErr Int :=
  match nic.broadcastUri.bind parseVlanUri with
  | some v => Except.ok (Int.ofNat v)
  | Option.none =>
    match nic.vlan with
    | some v => Except.ok v
    | Option.none => Except.error (PyErr.networkingError nic.deviceId)

/-- The VLAN resolution that prepare actually performs, phrased the way
the amended claim words it: solely from the broadcast URI of the form
vlan://id, independent of the NIC vlan field. -/
def buriOnlyNicVid (nic : NIC) : Except PyErr Nat :=
  match nic.broadcastUri.bind parseVlanUri with
  | some v => Except.ok v
  | Option.none => Except.error (PyErr.networkingError nic.deviceId)

/-- A NIC carrying an explicit VLAN id but no broadcast URI. -/
def nicVlanOnly : NIC :=
  { deviceId := 0
    mac := "02:00:00:00:00:01"
    ip := ""
    netmask := ""
    gateway := ""
    vlan := some 42
    broadcastUri := Option.none }

/-! ## Bridge VLAN programming (linux_bridge_vlan.py prepare, helpers.bridge_vlan) -/

/-- Flags a VLAN entry carries on a bridge port (pvid / untagged in the
bridge tool, PVID / EgressUntagged in the pyroute2 call). -/
structure VlanFlags where
  pvid : Bool
  egressUntagged : Bool
deriving DecidableEq

/-- The per-port VLAN table of the kernel bridge, keyed by VLAN id. -/
abbrev VlanTable := List (Nat × VlanFlags)

/-- bridge_vlan (helpers.py lines 116-153) with action del: remove the
given vid from the port's table. -/
def bridgeVlanDel (t : VlanTable) (vid : Nat) : VlanTable :=
  t.filter (fun e => e.1 ≠ vid)

/-- bridge_vlan with action add and flags: the kernel keys the table by
vid, so adding replaces any entry with the same vid. -/
def bridgeVlanAdd (t : VlanTable) (vid : Nat) (flags : VlanFlags) : VlanTable :=
  (t.filter (fun e => e.1 ≠ vid)) ++ [(vid, flags)]

/-- The VLAN programming prepare performs on one NIC's TAP port
(linux_bridge_vlan.py lines 123-129) once the vid has resolved: under
Python truthiness (vid different from 0), delete default VID 1 and add
the vid with flags PVID and EgressUntagged; for vid 0 nothing runs. -/
def programTapVlan (t : VlanTable) (vid : Nat) : VlanTable :=
  if vid ≠ 0 then
    bridgeVlanAdd (bridgeVlanDel t 1) vid { pvid := true, egressUntagged := true }
  else t

/-! ## Resource resolution in APIHandlers to_spec (api/handlers.py lines 563-643) -/

/-- The resource-related fields of the cloudstack.vm.details dictionary.
A field wrapped in Option models dict.get with a non-None default (cpus
falling back to cpu falling back to the literal 1); the three RAM fields
use dict.get with default None, which pyIntOf already covers via
PyVal.none. -/
structure PayloadResources where
  cpusField : Option PyVal
  cpuField : Option PyVal
  maxRam : PyVal
  minRam : PyVal
  memory : PyVal
deriving DecidableEq

/-- raw_cpus (handlers.py line 569): details.get with nested default. -/
def rawCpus (p : PayloadResources) : PyVal :=
  p.cpusField.getD (p.cpuField.getD (PyVal.int 1))

/-- cpus resolution (handlers.py lines 570-572). -/
def resolveCpus (p : PayloadResources) : Int :=
  let c := pySafeInt (rawCpus p) 1
  if c < 1 then 1 else c

/-- ram_bytes resolution (handlers.py lines 574-580): maxRam, then
minRam, then memory, each only when the running value is still
non-positive; final fallback 512 MiB. -/
def resolveRamBytes (p : PayloadResources) : Int :=
  let r1 := pySafeInt p.maxRam 0
  let r2 := if r1 ≤ 0 then pySafeInt p.minRam r1 else r1
  let r3 := if r2 ≤ 0 then pySafeInt p.memory r2 else r2
  if r3 ≤ 0 then 512 * 1024 * 1024 else r3

/-- mem_mib (handlers.py line 621): max(1, (ram_bytes + (1 MiB - 1)) //
1 MiB) with Python floor division, here Int.fdiv. -/
def memMibOfBytes (ramBytes : Int) : Int :=
  max 1 ((ramBytes + (1024 * 1024 - 1)).fdiv (1024 * 1024))

/-- The memory size in MiB the payload resolves to. -/
def resolveMemMib (p : PayloadResources) : Int :=
  memMibOfBytes (resolveRamBytes p)

/-- The numeric value of a payload field when it is positive, as the
specification words it for claim C9. -/
def positivePyInt (v : PyVal) : Option Int :=
  match pyIntOf v with
  | some n => if 0 < n then some n else Option.none
  | Option.none => Option.none

/-- Claim C9's description of the RAM resolution: the first positive
value among maxRam, minRam, memory, in that order, defaulting to 512 MiB
when none is positive. -/
def specFirstPositiveRam (p : PayloadResources) : Int :=
  match positivePyInt p.maxRam with
  | some n => n
  | Option.none =>
    match positivePyInt p.minRam with
    | some n => n
    | Option.none =>
      match positivePyInt p.memory with
      | some n => n
      | Option.none => 512 * 1024 * 1024

/-! ## Dataclass construction and the Spec builder (models.py, api/handlers.py) -/

/-- The field names of dataclass HostDetails in models.py lines 36-43. -/
def hostDetailsFields : List String :=
  ["firecracker_bin", "conf_dir", "run_dir", "log_dir"]

/-- The keyword arguments the API handlers pass when constructing
HostDetails (api/handlers.py lines 588-594, and likewise 411-417 and
674-680). -/
def handlersHostDetailsKwargs : List String :=
  ["firecracker_bin", "conf_dir", "run_dir", "log_dir", "payload_dir"]

/-- Calling a Python dataclass constructor with keyword arguments: a
keyword outside the field list, or a missing field (HostDetails declares
no defaults), raises TypeError. -/
def dataclassKwargsCall (fields kwargs : List String) : Except PyErr Unit :=
  if kwargs.all (fun k => fields.contains k) ∧ fields.all (fun f => kwargs.contains f) then
    Except.ok ()
  else Except.error PyErr.typeError

/-- One NIC dictionary of the create payload, as read by to_spec. -/
structure PayloadNic where
  deviceId : Nat
  mac : String
  broadcastUri : Option String
deriving DecidableEq

/-- The NIC vlan expression in to_spec (handlers.py line 558): when the
broadcast URI contains the substring vlan://, int is applied to the text
after the first occurrence of :// (a ValueError propagates out of
to_spec when that text is not numeric); otherwise the vlan is None. -/
def toSpecNicVlan (buriRaw : Option String) : Except PyErr (Option Int) :=
  let buri := buriRaw.getD ""
  if 1 < (buri.splitOn "vlan://").length then
    match ((buri.splitOn "://").getD 1 "").toInt? with
    | some n => Except.ok (some n)
    | Option.none => Except.error PyErr.valueError
  else Except.ok Option.none

/-- A create payload restricted to the data the claims quantify over. -/
structure CreatePayload where
  nics : List PayloadNic
  resources : PayloadResources
deriving DecidableEq

/-- The resource content of the Spec that to_spec is meant to return. -/
structure SpecResources where
  cpus : Int
  memMib : Int
deriving DecidableEq

/-- to_spec (api/handlers.py lines 540-643) in source order: parse the
NIC list (line 558 may raise ValueError), resolve cpus and ram_bytes
defensively (lines 563-580), construct VMDetails (fine), then construct
HostDetails with the keyword arguments of lines 588-594 against the
dataclass fields of models.py; mem_mib (line 621) is computed after that
construction. -/
def toSpecModel (p : CreatePayload) : Except PyErr SpecResources := do
  let _ ← p.nics.mapM (fun nic => toSpecNicVlan nic.broadcastUri)
  let cpus := resolveCpus p.resources
  let ramBytes := resolveRamBytes p.resources
  let _ ← dataclassKwargsCall hostDetailsFields handlersHostDetailsKwargs
  pure { cpus := cpus, memMib := memMibOfBytes ramBytes }

/-! ## The stop handler (api/handlers.py v1_vm_stop_by_name, lines 397-432) -/

/-- The HTTP outcome of the stop handler. -/
inductive StopOutcome
  | successResponse (vmName : String)
  | httpError (status : Nat)
deriving DecidableEq

/-- v1_vm_stop_by_name: whether or not the VM has an on-disk config, a
Spec is built first (cfg_to_spec at lines 674-680 when the config
exists, the minimal inline spec at lines 411-417 when it does not), and
both constructions pass the keyword argument payload_dir to HostDetails.
The stop attempt itself is wrapped in try/except pass; any exception
outside it maps to HTTP 500. -/
def v1VmStopByName (vmName : String) (cfgExists : Bool)
    (stopResult : Except PyErr Unit) : StopOutcome :=
  let specBuild : Except PyErr Unit :=
    if cfgExists then
      dataclassKwargsCall hostDetailsFields handlersHostDetailsKwargs
    else
      dataclassKwargsCall hostDetailsFields handlersHostDetailsKwargs
  match specBuild with
  | Except.error _ => StopOutcome.httpError 500
  | Except.ok _ =>
    match stopResult with
    | _ => StopOutcome.successResponse vmName

/-! ## Create rollback (api/handlers.py api_create, lines 79-138) -/

/-- The attribute set of class FileBackend (backend/storage/file.py). -/
def fileBackendAttrs : List String := ["prepare", "device_path", "delete", "cleanup"]

/-- The attribute set of class LvmBackend (backend/storage/lvm.py). -/
def lvmBackendAttrs : List String := ["prepare", "device_path", "delete", "cleanup"]

/-- The attribute set of class LvmThinBackend (backend/storage/lvmthin.py). -/
def lvmThinBackendAttrs : List String := ["prepare", "device_path", "delete", "cleanup"]

/-- get_backend_by_driver (backend/storage/init module, lines 67-100)
reduced to the attribute set of the object it returns; an unknown driver
raises ValueError. -/
def storageBackendAttrs (driver : String) : Except PyErr (List String) :=
  if driver = "file" then Except.ok fileBackendAttrs
  else if driver = "lvm" then Except.ok lvmBackendAttrs
  else if driver = "lvmthin" then Except.ok lvmThinBackendAttrs
  else Except.error PyErr.valueError

/-- APIHandlers storage_teardown (api/handlers.py lines 718-721): build
the backend for the driver and call backend.teardown(); calling an
attribute the object does not have raises AttributeError. -/
def storageTeardownCall (driver : String) : Except PyErr Unit :=
  match storageBackendAttrs driver with
  | Except.error e => Except.error e
  | Except.ok attrs =>
    if attrs.contains "teardown" then Except.ok () else Except.error PyErr.attributeError

/-- A rollback step executed by the cleanup block of api_create. -/
inductive RbAction
  | stopVm
  | storageTeardown
  | netTeardown
deriving DecidableEq

/-- Outcomes of the effectful pipeline steps of api_create; each is an
external call whose result the handler merely observes. -/
structure CreateEnv where
  toSpec : Except PyErr Unit
  storagePrepare : Except PyErr Unit
  netPrepare : Except PyErr Unit
  writeConfig : Except PyErr Unit
  startVm : Except PyErr Unit
  netTeardown : Except PyErr Unit
deriving DecidableEq

/-- What a create request left behind: the HTTP outcome, the original
error surfaced to the caller, the rollback steps that ran in order, and
whether the storage volume and the network TAPs are still present. -/
structure CreateOutcome where
  success : Bool
  surfaced : Option PyErr
  rollbackRun : List RbAction
  storagePresent : Bool
  netPresent : Bool
deriving DecidableEq

/-- The cleanup-on-failure block of api_create (handlers.py lines
120-135), given the pipeline flags at the time the exception was caught.
Each branch is wrapped in try/except pass, so a teardown that raises
leaves its resource in place; the storage branch runs before the
networking branch, and the storage branch calls storage_teardown. -/
def createRollback (env : CreateEnv) (driver : String)
    (vmCreated storagePrepared networkPrepared : Bool)
    (storagePresent netPresent : Bool) : List RbAction × Bool × Bool :=
  let stopActs := if vmCreated then [RbAction.stopVm] else []
  let storageStep :=
    if storagePrepared then
      ([RbAction.storageTeardown],
        match storageTeardownCall driver with
        | Except.ok _ => false
        | Except.error _ => storagePresent)
    else ([], storagePresent)
  let netStep :=
    if networkPrepared then
      ([RbAction.netTeardown],
        match env.netTeardown with
        | Except.ok _ => false
        | Except.error _ => netPresent)
    else ([], netPresent)
  (stopActs ++ storageStep.1 ++ netStep.1, storageStep.2, netStep.2)

/-- api_create after the payload dump (handlers.py lines 79-138): run
the pipeline in order, setting storage_prepared and network_prepared as
the steps succeed; on the first exception run the cleanup block with the
flags as they stand and surface the original error.  The ssh-key
injection and the network-snapshot save are each wrapped in their own
try/except and cannot change control flow, so they are omitted here.
vm_created is assigned only after start_vm returns, and nothing that can
raise runs between that assignment and the return, so the exception
handler can never observe vm_created set. -/
def apiCreate (env : CreateEnv) (driver : String) : CreateOutcome :=
  match env.toSpec with
  | Except.error e =>
    let r := createRollback env driver false false false false false
    { success := false, surfaced := some e, rollbackRun := r.1,
      storagePresent := r.2.1, netPresent := r.2.2 }
  | Except.ok _ =>
    match env.storagePrepare with
    | Except.error e =>
      let r := createRollback env driver false false false false false
      { success := false, surfaced := some e, rollbackRun := r.1,
        storagePresent := r.2.1, netPresent := r.2.2 }
    | Except.ok _ =>
      match env.netPrepare with
      | Except.error e =>
        let r := createRollback env driver false true false true false
        { success := false, surfaced := some e, rollbackRun := r.1,
          storagePresent := r.2.1, netPresent := r.2.2 }
      | Except.ok _ =>
        match env.writeConfig with
        | Except.error e =>
          let r := createRollback env driver false true true true true
          { success := false, surfaced := some e, rollbackRun := r.1,
            storagePresent := r.2.1, netPresent := r.2.2 }
        | Except.ok _ =>
          match env.startVm with
          | Except.error e =>
            let r := createRollback env driver false true true true true
            { success := false, surfaced := some e, rollbackRun := r.1,
              storagePresent := r.2.1, netPresent := r.2.2 }
          | Except.ok _ =>
            { success := true, surfaced := Option.none, rollbackRun := [],
              storagePresent := true, netPresent := true }

/-! ## Payload persistence and recovery paths (handlers.py, config/manager.py) -/

/-- A flat view of the host filesystem: paths with file contents. -/
abbrev FileSys := List (String × String)

/-- Look a path up in the filesystem view. -/
def fsLookup (fs : FileSys) (p : String) : Option String :=
  (fs.find? (fun e => e.1 = p)).map (fun e => e.2)

/-- The path api_create dumps the raw payload to (handlers.py line 76). -/
def createSpecWritePath (payloadDir vmName : String) : String :=
  payloadDir ++ "/create-spec-" ++ vmName ++ ".json"

/-- ConfigManager payload_path (config/manager.py lines 86-90). -/
def payloadReadPath (payloadDir : Option String) (vmName : String) : String :=
  (payloadDir.getD "/var/lib/firecracker/payload") ++ "/" ++ vmName ++ "-payload.json"

/-- The legacy fallback path of ConfigManager load_payload
(config/manager.py lines 441-447): a create-spec file under log_dir. -/
def legacyPayloadReadPath (logDir vmName : String) : String :=
  logDir ++ "/create-spec-" ++ vmName ++ ".json"

/-- ConfigManager load_payload (config/manager.py lines 434-450): read
payload_path, then the legacy path under log_dir; a missing file on both
yields None. -/
def loadPayload (fs : FileSys) (payloadDir logDir : Option String) (vmName : String) :
    Option String :=
  match fsLookup fs (payloadReadPath payloadDir vmName) with
  | some c => some c
  | Option.none =>
    match logDir with
    | some ld => fsLookup fs (legacyPayloadReadPath ld vmName)
    | Option.none => Option.none

/-! ## State-store write and read mechanics (state/manager.py, config/manager.py) -/

/-- A filesystem operation performed by a persistence routine. -/
inductive FsOp
  | mkdirAll (dir : String)
  | writeFile (path : String)
  | rename (src dst : String)
deriving DecidableEq

/-- StateManager save_vm_states (state/manager.py lines 22-47): no
configured run_dir skips the save; otherwise mkdir the parent and open
the final path directly for writing. -/
def saveVmStatesOps : Option String → List FsOp
  | Option.none => []
  | some rd => [FsOp.mkdirAll rd, FsOp.writeFile (rd ++ "/vm-states.json")]

/-- ConfigManager save_network_config (config/manager.py lines 159-172):
mkdir the parent and open the final path directly for writing. -/
def saveNetworkConfigOps (runDir : Option String) (vmName : String) : List FsOp :=
  match runDir with
  | Option.none => []
  | some rd => [FsOp.mkdirAll rd, FsOp.writeFile (rd ++ "/network-config-" ++ vmName ++ ".json")]

/-- The payload dump in api_create (handlers.py lines 70-78): mkdir the
payload directory and open the final path directly for writing. -/
def persistCreatePayloadOps (payloadDir : Option String) (vmName : String) : List FsOp :=
  match payloadDir with
  | Option.none => []
  | some pd => [FsOp.mkdirAll pd, FsOp.writeFile (createSpecWritePath pd vmName)]

/-- The write discipline claim C4 asserts: a temporary path is written
and then renamed onto the final path. -/
def tempRenameWrite (ops : List FsOp) (finalPath : String) : Prop :=
  ∃ tmp, tmp ≠ finalPath ∧ FsOp.writeFile tmp ∈ ops ∧ FsOp.rename tmp finalPath ∈ ops

/-- What the code actually does: one direct write to the final path and
no rename at all. -/
def directWriteNoRename (ops : List FsOp) (finalPath : String) : Prop :=
  FsOp.writeFile finalPath ∈ ops ∧ ∀ s d, FsOp.rename s d ∉ ops

/-- StateManager load_vm_states (state/manager.py lines 49-65): no
run_dir or a missing file yields the empty map; the JSON decode is an
external call whose failure is also caught and yields the empty map. -/
def loadVmStates (fs : FileSys) (runDir : Option String)
    (decode : String → Except PyErr (List (String × String))) : List (String × String) :=
  match runDir with
  | Option.none => []
  | some rd =>
    match fsLookup fs (rd ++ "/vm-states.json") with
    | Option.none => []
    | some c =>
      match decode c with
      | Except.ok m => m
      | Except.error _ => []

/-- The provenance of a network snapshot returned by load_network_config. -/
inductive LoadedNetCfg
  | fromFile (content : String)
  | rebuiltFromPayload (payload : String)
deriving DecidableEq

/-- ConfigManager load_network_config (config/manager.py lines 174-204):
a missing snapshot file falls back to reconstruction from the persisted
payload, and a missing payload yields None; no branch raises. -/
def loadNetworkConfig (fs : FileSys) (runDir payloadDir logDir : Option String)
    (vmName : String) : Option LoadedNetCfg :=
  match runDir with
  | Option.none => Option.none
  | some rd =>
    match fsLookup fs (rd ++ "/network-config-" ++ vmName ++ ".json") with
    | some c => some (LoadedNetCfg.fromFile c)
    | Option.none =>
      match loadPayload fs payloadDir logDir vmName with
      | some p => some (LoadedNetCfg.rebuiltFromPayload p)
      | Option.none => Option.none

/-! ## FDB priming (helpers.py setup_fdb_entry, setup_fdb_entry_bridge) -/

/-- An FDB entry: device, MAC and VLAN id. -/
structure FdbKey where
  dev : String
  mac : String
  vid : Nat
deriving DecidableEq

/-- The forwarding database restricted to the agent's primed entries. -/
abbrev FdbTable := List FdbKey

/-- A deletion timer scheduled by a priming helper: it fires after the
given number of seconds and deletes the given entry. -/
structure FdbTimer where
  delaySeconds : Nat
  target : FdbKey
deriving DecidableEq

/-- setup_fdb_entry (helpers.py lines 156-181): replace the FDB entry via
netlink, then start a threading.Timer of 8.0 seconds whose body deletes
that same entry; when the replace raises NetlinkError the whole block is
skipped, so nothing is primed and no timer starts. -/
def setupFdbEntry (replaceOutcome : Except PyErr Unit) (st : FdbTable) (k : FdbKey) :
    FdbTable × List FdbTimer :=
  match replaceOutcome with
  | Except.ok _ => ((st.filter (fun e => e ≠ k)) ++ [k], [{ delaySeconds := 8, target := k }])
  | Except.error _ => (st, [])

/-- setup_fdb_entry_bridge (helpers.py lines 184-225): the bridge fdb
replace runs with check False, so a failing command raises nothing and
the 8-second deletion timer is scheduled either way; whether the entry
really appeared depends on the command's success. -/
def setupFdbEntryBridge (replaceSucceeded : Bool) (st : FdbTable) (k : FdbKey) :
    FdbTable × List FdbTimer :=
  (if replaceSucceeded then (st.filter (fun e => e ≠ k)) ++ [k] else st,
    [{ delaySeconds := 8, target := k }])

/-- The timer body (del_fdb or del_fdb_bridge): attempt the deletion;
every exception, including the TAP no longer existing, is swallowed.  A
successful delete removes the entry; a failed one leaves the table, but
the body itself never propagates an error. -/
def fdbTimerFire (delOutcome : Except PyErr Unit) (st : FdbTable) (k : FdbKey) :
    Except PyErr FdbTable :=
  match delOutcome with
  | Except.ok _ => Except.ok (st.filter (fun e => e ≠ k))
  | Except.error _ => Except.ok st

/-- A create run whose pipeline succeeds until start_vm raises. -/
def envStartVmFails : CreateEnv :=
  { toSpec := Except.ok ()
    storagePrepare := Except.ok ()
    netPrepare := Except.ok ()
    writeConfig := Except.ok ()
    startVm := Except.error PyErr.otherError
    netTeardown := Except.ok () }

/-! # Theorems -/

/-- C1: for a file-storage create whose pipeline succeeds until start_vm
raises, the cleanup block runs the storage teardown before the
networking teardown (not in reverse preparation order), the storage
teardown raises AttributeError because no storage backend defines a
teardown method, that error is swallowed and the volume stays present,
and the original error is surfaced to the caller. -/
theorem apiCreate_rollback_storage_not_cleaned :
    apiCreate envStartVmFails "file" =
      { success := false, surfaced := some PyErr.otherError,
        rollbackRun := [RbAction.storageTeardown, RbAction.netTeardown],
        storagePresent := true, netPresent := false } ∧
    storageTeardownCall "file" = Except.error PyErr.attributeError := by
  constructor <;> rfl

/-- With a None fallback, vid_from_buri is exactly the anchored
vlan://digits parse of the broadcast URI. -/
theorem vidFromBuri_none_fallback (b : Option String) :
    vidFromBuri b Option.none = b.bind parseVlanUri := by
  cases b with
  | none => rfl
  | some s =>
    rw [Option.some_bind]
    show (if s.isEmpty = true then fallbackVid Option.none
          else
            match parseVlanUri s with
            | some n => some n
            | Option.none => fallbackVid Option.none) = parseVlanUri s
    by_cases he : s.isEmpty
    · have hs : s = "" := (String.isEmpty_iff s).mp he
      subst hs
      decide
    · rw [if_neg he]
      cases h : parseVlanUri s with
      | none => rfl
      | some n => rfl

/-- C2 counterexample: a NIC with an explicit vlan field of 42 and no
broadcast URI.  The claim resolves its VLAN id to 42; prepare raises
NetworkingError because the call site passes None as the fallback. -/
theorem prepareNicVid_ignores_vlan_field :
    specClaimNicVid nicVlanOnly = Except.ok 42 ∧
    nicVlanOnly.vlan = some 42 ∧
    prepareNicVid nicVlanOnly = Except.error (PyErr.networkingError 0) := by
  refine ⟨rfl, rfl, rfl⟩

/-- C2 amended: for every NIC processed by the linux-bridge-vlan
backend, prepare resolves the VLAN id solely from a broadcastUri of the
form vlan://id; the explicit vlan field is never consulted, and prepare
fails with NetworkingError naming the device index whenever the URI does
not resolve. -/
theorem prepareNicVid_eq_buriOnly (nic : NIC) :
    prepareNicVid nic = buriOnlyNicVid nic := by
  unfold prepareNicVid buriOnlyNicVid
  rw [vidFromBuri_none_fallback]

/-- C3: with the default payload directory and a distinct log directory,
after api_create has persisted the payload at create-spec-vm-a.json the
payload loader of the config manager (used by recovery and by network
snapshot reconstruction) finds nothing: it reads vm-a-payload.json under
the payload directory and create-spec-vm-a.json under the log directory,
neither of which is the written file. -/
theorem createSpec_payload_not_read_back :
    fsLookup [(createSpecWritePath "/var/lib/firecracker/payload" "vm-a", "raw-payload")]
        (createSpecWritePath "/var/lib/firecracker/payload" "vm-a") = some "raw-payload" ∧
    loadPayload [(createSpecWritePath "/var/lib/firecracker/payload" "vm-a", "raw-payload")]
        (some "/var/lib/firecracker/payload") (some "/var/log/firecracker") "vm-a"
      = Option.none ∧
    loadNetworkConfig [(createSpecWritePath "/var/lib/firecracker/payload" "vm-a", "raw-payload")]
        (some "/var/run/firecracker") (some "/var/lib/firecracker/payload")
        (some "/var/log/firecracker") "vm-a"
      = Option.none := by
  refine ⟨by decide, by decide, by decide⟩

/-- C4 counterexample: the running-set write of save_vm_states performs
no temporary-file-plus-rename: its operation trace holds only a mkdir
and a direct write of vm-states.json. -/
theorem saveVmStates_not_temp_rename :
    ¬ tempRenameWrite (saveVmStatesOps (some "/var/run/firecracker"))
        ("/var/run/firecracker" ++ "/vm-states.json") := by
  rintro ⟨tmp, hne, hw, hr⟩
  simp only [saveVmStatesOps, List.mem_cons, List.not_mem_nil, or_false] at hr
  rcases hr with hr | hr <;> exact FsOp.noConfusion hr

/-- C4 amended: every state-store artifact write (network snapshot,
create payload, running set) is a single direct write to the final path
with no rename, and reading any of the artifacts from a filesystem that
does not hold them is not an error: the running set loads as the empty
map, the network snapshot and the payload load as None. -/
theorem stateStore_direct_writes_and_missing_reads (rd pd vm : String)
    (decode : String → Except PyErr (List (String × String))) :
    directWriteNoRename (saveVmStatesOps (some rd)) (rd ++ "/vm-states.json") ∧
    directWriteNoRename (saveNetworkConfigOps (some rd) vm)
      (rd ++ "/network-config-" ++ vm ++ ".json") ∧
    directWriteNoRename (persistCreatePayloadOps (some pd) vm) (createSpecWritePath pd vm) ∧
    loadVmStates [] (some rd) decode = [] ∧
    loadNetworkConfig [] (some rd) (some pd) Option.none vm = Option.none ∧
    loadPayload [] (some pd) Option.none vm = Option.none := by
  refine ⟨⟨?_, ?_⟩, ⟨?_, ?_⟩, ⟨?_, ?_⟩, rfl, rfl, rfl⟩
  · simp [saveVmStatesOps]
  · intro s d hr
    simp only [saveVmStatesOps, List.mem_cons, List.not_mem_nil, or_false] at hr
    rcases hr with hr | hr <;> exact FsOp.noConfusion hr
  · simp [saveNetworkConfigOps]
  · intro s d hr
    simp only [saveNetworkConfigOps, List.mem_cons, List.not_mem_nil, or_false] at hr
    rcases hr with hr | hr <;> exact FsOp.noConfusion hr
  · simp [persistCreatePayloadOps]
  · intro s d hr
    simp only [persistCreatePayloadOps, List.mem_cons, List.not_mem_nil, or_false] at hr
    rcases hr with hr | hr <;> exact FsOp.noConfusion hr

/-- C4 amended, witness at concrete inputs. -/
theorem stateStore_direct_writes_and_missing_reads_witness :
    directWriteNoRename (saveVmStatesOps (some "/var/run/firecracker"))
      ("/var/run/firecracker" ++ "/vm-states.json") ∧
    directWriteNoRename (saveNetworkConfigOps (some "/var/run/firecracker") "vm-a")
      ("/var/run/firecracker" ++ "/network-config-" ++ "vm-a" ++ ".json") ∧
    directWriteNoRename
      (persistCreatePayloadOps (some "/var/lib/firecracker/payload") "vm-a")
      (createSpecWritePath "/var/lib/firecracker/payload" "vm-a") ∧
    loadVmStates [] (some "/var/run/firecracker") (fun _ => Except.ok []) = [] ∧
    loadNetworkConfig [] (some "/var/run/firecracker")
      (some "/var/lib/firecracker/payload") Option.none "vm-a" = Option.none ∧
    loadPayload [] (some "/var/lib/firecracker/payload") Option.none "vm-a" = Option.none :=
  stateStore_direct_writes_and_missing_reads "/var/run/firecracker"
    "/var/lib/firecracker/payload" "vm-a" (fun _ => Except.ok [])

/-- C5: stopping a VM unknown to the agent (no on-disk config) does not
return the idempotent success the handler intends: building the minimal
Spec passes the keyword payload_dir to HostDetails, whose dataclass
fields do not include it, so a TypeError is raised and mapped to HTTP
500. -/
theorem v1VmStopByName_unknown_vm_returns_500 :
    v1VmStopByName "vm-a" false (Except.ok ()) = StopOutcome.httpError 500 ∧
    dataclassKwargsCall hostDetailsFields handlersHostDetailsKwargs
      = Except.error PyErr.typeError := by
  constructor <;> rfl

/-- C6: tap_name at device index 1000 with a ten-character alphanumeric
VM name is 16 characters long, one more than the 15-character interface
name limit that the claim (and the function docstring) require; the
sanitised name part itself is within its 10-character bound, so the
excess comes from the unbounded device index digits. -/
theorem tapName_length_limit_violated :
    (tapName 1000 "abcdefghij").length = 16 ∧
    sanitizeVmName "abcdefghij" = "abcdefghij" := by
  constructor <;> decide

/-- C7 counterexample: with resolved VLAN id 1 (broadcastUri vlan://1,
inside the 1-4094 range the data model allows) the programming deletes
VID 1 and re-adds it as PVID and egress-untagged, so the TAP does carry
VID 1 after prepare; and with resolved VLAN id 0 on a TAP holding the
bridge default VID 1, the whole programming block is skipped, so VID 1
stays and the NIC's VID is absent. -/
theorem programTapVlan_vid1_vid0_counterexample :
    (1, { pvid := true, egressUntagged := true : VlanFlags }) ∈ programTapVlan [] 1 ∧
    programTapVlan [(1, { pvid := true, egressUntagged := true })] 0
      = [(1, { pvid := true, egressUntagged := true })] := by
  constructor <;> decide

/-- C7 amended: for every prior VLAN table on the TAP port and every
resolved VLAN id of at least 2, after the prepare programming the port
carries no VID 1 entry and carries the NIC's VID exactly once, with
flags PVID and EgressUntagged. -/
theorem programTapVlan_access_invariant (t : VlanTable) (vid : Nat) (h : 2 ≤ vid) :
    (∀ f : VlanFlags, (1, f) ∉ programTapVlan t vid) ∧
    (programTapVlan t vid).countP (fun e => e.1 = vid) = 1 ∧
    (vid, { pvid := true, egressUntagged := true : VlanFlags }) ∈ programTapVlan t vid := by
  have h0 : vid ≠ 0 := by omega
  have h1 : vid ≠ 1 := by omega
  unfold programTapVlan bridgeVlanAdd bridgeVlanDel
  rw [if_pos h0]
  refine ⟨?_, ?_, ?_⟩
  · intro f hf
    simp only [List.mem_append, List.mem_filter, List.mem_singleton,
      decide_eq_true_eq, Prod.mk.injEq] at hf
    rcases hf with ⟨⟨_, hne⟩, _⟩ | ⟨hv, _⟩
    · exact hne rfl
    · exact h1 hv.symm
  · rw [List.countP_append]
    have hz : List.countP (fun e => decide (e.1 = vid))
        (List.filter (fun e => decide (e.1 ≠ vid))
          (List.filter (fun e => decide (e.1 ≠ 1)) t)) = 0 := by
      rw [List.countP_eq_zero]
      intro a ha
      have hne := (List.mem_filter.mp ha).2
      simp only [decide_eq_true_eq] at hne ⊢
      exact hne
    rw [hz]
    simp
  · exact List.mem_append_right _ (List.mem_singleton.mpr rfl)

/-- C7 amended, witness: VLAN id 42 on a TAP that starts with the bridge
default VID 1. -/
theorem programTapVlan_access_invariant_witness :
    (∀ f : VlanFlags,
      (1, f) ∉ programTapVlan [(1, { pvid := true, egressUntagged := true })] 42) ∧
    (programTapVlan [(1, { pvid := true, egressUntagged := true })] 42).countP
      (fun e => e.1 = 42) = 1 ∧
    (42, { pvid := true, egressUntagged := true : VlanFlags })
      ∈ programTapVlan [(1, { pvid := true, egressUntagged := true })] 42 :=
  programTapVlan_access_invariant [(1, { pvid := true, egressUntagged := true })] 42
    (by decide)

/-- C8: both FDB priming helpers schedule exactly one deletion timer
with an 8-second deadline targeting the primed entry; the primed entry
is present immediately after priming; the timer body never propagates an
error, whatever the underlying netlink or bridge-command outcome
(including the TAP having disappeared); and when the underlying delete
succeeds the entry is gone from the table. -/
theorem fdb_priming_transient (st : FdbTable) (k : FdbKey)
    (replaceSucceeded : Bool) (delOutcome : Except PyErr Unit) :
    (setupFdbEntry (Except.ok ()) st k).2 = [{ delaySeconds := 8, target := k }] ∧
    (setupFdbEntryBridge replaceSucceeded st k).2 = [{ delaySeconds := 8, target := k }] ∧
    k ∈ (setupFdbEntry (Except.ok ()) st k).1 ∧
    (fdbTimerFire delOutcome st k).isOk = true ∧
    fdbTimerFire (Except.ok ()) ((setupFdbEntry (Except.ok ()) st k).1) k
      = Except.ok (((setupFdbEntry (Except.ok ()) st k).1).filter (fun e => e ≠ k)) ∧
    k ∉ (((setupFdbEntry (Except.ok ()) st k).1).filter (fun e => e ≠ k)) := by
  refine ⟨rfl, rfl, ?_, ?_, rfl, ?_⟩
  · simp [setupFdbEntry]
  · cases delOutcome <;> rfl
  · intro hmem
    simp [List.mem_filter] at hmem

/-- C9: the resolved RAM byte count equals the first positive value
among maxRam, minRam and memory (512 MiB when none is positive), it is
always at least 1 byte, and the MiB count is its ceiling division by
2 to the 20: the unique integer with mib * 1048576 covering the bytes
while (mib - 1) * 1048576 does not. -/
theorem resolveRam_first_positive_ceiling (p : PayloadResources) :
    resolveRamBytes p = specFirstPositiveRam p ∧
    1 ≤ resolveRamBytes p ∧
    resolveRamBytes p ≤ resolveMemMib p * (1024 * 1024) ∧
    (resolveMemMib p - 1) * (1024 * 1024) < resolveRamBytes p := by
  have hb : 1 ≤ resolveRamBytes p := by
    unfold resolveRamBytes pySafeInt
    cases pyIntOf p.maxRam <;> cases pyIntOf p.minRam <;> cases pyIntOf p.memory <;>
      simp only [Option.getD_some, Option.getD_none] <;> split_ifs <;> omega
  have hceil : ∀ b : Int, 1 ≤ b →
      b ≤ memMibOfBytes b * (1024 * 1024) ∧ (memMibOfBytes b - 1) * (1024 * 1024) < b := by
    intro b hb1
    unfold memMibOfBytes
    rw [Int.fdiv_eq_ediv _ (by norm_num)]
    have hq1 : 1 ≤ (b + (1024 * 1024 - 1)) / (1024 * 1024) := by omega
    rw [max_eq_right hq1]
    constructor <;> omega
  refine ⟨?_, hb, (hceil _ hb).1, (hceil _ hb).2⟩
  unfold resolveRamBytes specFirstPositiveRam positivePyInt pySafeInt
  cases pyIntOf p.maxRam <;> cases pyIntOf p.minRam <;> cases pyIntOf p.memory <;>
    simp only [Option.getD_some, Option.getD_none] <;> split_ifs <;> simp_all <;> omega

/-- C9 witness: a payload whose maxRam is malformed and whose minRam is
1 GiB resolves to 1 GiB and converts to 1024 MiB. -/
theorem resolveRam_first_positive_ceiling_witness :
    resolveRamBytes
        { cpusField := Option.none, cpuField := Option.none,
          maxRam := PyVal.str "garbage", minRam := PyVal.int 1073741824,
          memory := PyVal.none }
      = specFirstPositiveRam
        { cpusField := Option.none, cpuField := Option.none,
          maxRam := PyVal.str "garbage", minRam := PyVal.int 1073741824,
          memory := PyVal.none } ∧
    1 ≤ resolveRamBytes
        { cpusField := Option.none, cpuField := Option.none,
          maxRam := PyVal.str "garbage", minRam := PyVal.int 1073741824,
          memory := PyVal.none } ∧
    resolveRamBytes
        { cpusField := Option.none, cpuField := Option.none,
          maxRam := PyVal.str "garbage", minRam := PyVal.int 1073741824,
          memory := PyVal.none }
      ≤ resolveMemMib
        { cpusField := Option.none, cpuField := Option.none,
          maxRam := PyVal.str "garbage", minRam := PyVal.int 1073741824,
          memory := PyVal.none } * (1024 * 1024) ∧
    (resolveMemMib
        { cpusField := Option.none, cpuField := Option.none,
          maxRam := PyVal.str "garbage", minRam := PyVal.int 1073741824,
          memory := PyVal.none } - 1) * (1024 * 1024)
      < resolveRamBytes
        { cpusField := Option.none, cpuField := Option.none,
          maxRam := PyVal.str "garbage", minRam := PyVal.int 1073741824,
          memory := PyVal.none } :=
  resolveRam_first_positive_ceiling
    { cpusField := Option.none, cpuField := Option.none,
      maxRam := PyVal.str "garbage", minRam := PyVal.int 1073741824,
      memory := PyVal.none }

/-- C10: to_spec never returns a Spec: for every payload the HostDetails
construction receives the unexpected keyword payload_dir and raises
TypeError (when the NIC vlan expression has not already raised), so the
claimed total construction with cpus and mem_mib at least 1 never
completes, even though the embedded resource resolutions themselves are
total and bounded below by 1. -/
theorem toSpecModel_never_succeeds (p : CreatePayload) :
    (toSpecModel p).isOk = false ∧
    1 ≤ resolveCpus p.resources ∧ 1 ≤ resolveMemMib p.resources := by
  refine ⟨?_, ?_, ?_⟩
  · unfold toSpecModel
    have hd : dataclassKwargsCall hostDetailsFields handlersHostDetailsKwargs
        = Except.error PyErr.typeError := rfl
    cases hn : p.nics.mapM (fun nic => toSpecNicVlan nic.broadcastUri) with
    | error e => simp [hn, bind, Except.bind, Except.isOk, Except.toBool]
    | ok l => simp [hn, hd, bind, Except.bind, Except.isOk, Except.toBool]
  · unfold resolveCpus pySafeInt
    cases pyIntOf (rawCpus p.resources) <;>
      simp only [Option.getD_some, Option.getD_none] <;> split_ifs <;> omega
  · have hb : 1 ≤ resolveRamBytes p.resources := by
      unfold resolveRamBytes pySafeInt
      cases pyIntOf p.resources.maxRam <;> cases pyIntOf p.resources.minRam <;>
        cases pyIntOf p.resources.memory <;>
        simp only [Option.getD_some, Option.getD_none] <;> split_ifs <;> omega
    unfold resolveMemMib memMibOfBytes
    rw [Int.fdiv_eq_ediv _ (by norm_num)]
    have hq1 : 1 ≤ (resolveRamBytes p.resources + (1024 * 1024 - 1)) / (1024 * 1024) := by
      omega
    rw [max_eq_right hq1]
    exact hq1

/-- C2 amended, witness at the concrete NIC with an explicit vlan field
and no broadcast URI. -/
theorem prepareNicVid_eq_buriOnly_witness :
    prepareNicVid nicVlanOnly = buriOnlyNicVid nicVlanOnly :=
  prepareNicVid_eq_buriOnly nicVlanOnly

/-- C8 witness at a concrete primed entry. -/
theorem fdb_priming_transient_witness :
    (setupFdbEntry (Except.ok ()) []
        { dev := "f0-vma", mac := "02:00:00:00:00:01", vid := 42 }).2
      = [{ delaySeconds := 8,
           target := { dev := "f0-vma", mac := "02:00:00:00:00:01", vid := 42 } }] ∧
    (setupFdbEntryBridge true []
        { dev := "f0-vma", mac := "02:00:00:00:00:01", vid := 42 }).2
      = [{ delaySeconds := 8,
           target := { dev := "f0-vma", mac := "02:00:00:00:00:01", vid := 42 } }] ∧
    { dev := "f0-vma", mac := "02:00:00:00:00:01", vid := 42 }
      ∈ (setupFdbEntry (Except.ok ()) []
          { dev := "f0-vma", mac := "02:00:00:00:00:01", vid := 42 }).1 ∧
    (fdbTimerFire (Except.ok ()) []
        { dev := "f0-vma", mac := "02:00:00:00:00:01", vid := 42 }).isOk = true ∧
    fdbTimerFire (Except.ok ())
        ((setupFdbEntry (Except.ok ()) []
            { dev := "f0-vma", mac := "02:00:00:00:00:01", vid := 42 }).1)
        { dev := "f0-vma", mac := "02:00:00:00:00:01", vid := 42 }
      = Except.ok
          (((setupFdbEntry (Except.ok ()) []
              { dev := "f0-vma", mac := "02:00:00:00:00:01", vid := 42 }).1).filter
            (fun e => e ≠ { dev := "f0-vma", mac := "02:00:00:00:00:01", vid := 42 })) ∧
    { dev := "f0-vma", mac := "02:00:00:00:00:01", vid := 42 }
      ∉ (((setupFdbEntry (Except.ok ()) []
            { dev := "f0-vma", mac := "02:00:00:00:00:01", vid := 42 }).1).filter
          (fun e => e ≠ { dev := "f0-vma", mac := "02:00:00:00:00:01", vid := 42 })) :=
  fdb_priming_transient [] { dev := "f0-vma", mac := "02:00:00:00:00:01", vid := 42 }
    true (Except.ok ())

/-- C10 witness: the empty create payload. -/
theorem toSpecModel_never_succeeds_witness :
    (toSpecModel
        { nics := [],
          resources :=
            { cpusField := Option.none, cpuField := Option.none,
              maxRam := PyVal.none, minRam := PyVal.none, memory := PyVal.none } }).isOk
      = false ∧
    1 ≤ resolveCpus
        { cpusField := Option.none, cpuField := Option.none,
          maxRam := PyVal.none, minRam := PyVal.none, memory := PyVal.none } ∧
    1 ≤ resolveMemMib
        { cpusField := Option.none, cpuField := Option.none,
          maxRam := PyVal.none, minRam := PyVal.none, memory := PyVal.none } :=
  toSpecModel_never_succeeds
    { nics := [],
      resources :=
        { cpusField := Option.none, cpuField := Option.none,
          maxRam := PyVal.none, minRam := PyVal.none, memory := PyVal.none } }
